import Mathlib

/-!
Verification of the Bayes Plan Checker scoring pipeline against its design
specification.  The Streamlit caller (`src/app.py`) is embedded directly;
the engine modules it imports (`engine1_text`, `engine2_context`,
`engine3_model`) are not part of the available source, so their behaviour
is modelled from the specification, as marked on each definition.
-/

namespace PlanChecker

/-! ## Data model: dimensions and variable names -/

/-- The nine harm/benefit dimension names of a Rulebook Score Map (spec §3). -/
def dimensions : List String :=
  ["Heritage_Harm", "Design_Quality", "Amenity_Harm", "Ecology_Harm",
   "GB_Harm", "Flood_Risk", "Economic_Benefit", "Social_Benefit",
   "Policy_Compliance"]

/-- The document-variable names X1–X9, in fixed order, matching `dimensions`
(spec §6 key vocabulary). -/
def xNames : List String :=
  ["X1_Heritage_Harm", "X2_Design_Quality", "X3_Amenity_Harm", "X4_Ecology_Harm",
   "X5_GB_Harm", "X6_Flood_Risk", "X7_Economic_Benefit", "X8_Social_Benefit",
   "X9_Policy_Compliance"]

/-- A Rulebook Score Map: dimension name to bounded numeric score. -/
abbrev ScoreMap := List (String × ℚ)

/-- Errors of the pipeline (spec §7 taxonomy). -/
inductive EngineError where
  | MissingEvidenceError
  | InvalidContextError
  | UnscoredVariableError
  deriving DecidableEq, Repr

/-- A value carried in the Document-Variable Map: a numeric X-variable, or the
Appeal Decision's raw score map under the reserved key (spec §3). -/
inductive Value where
  | num (q : ℚ)
  | table (m : ScoreMap)
  deriving DecidableEq, Repr

/-! ## Rulebook Scorer (Engine 0/1 core) -/

/-- Whether `pat` occurs at the head of `s` (character-by-character). -/
def leadsWith : List Char → List Char → Bool
  | [], _ => true
  | _ :: _, [] => false
  | p :: ps, c :: cs => p == c && leadsWith ps cs

/-- Number of (possibly overlapping) occurrences of `pat` in `s`. -/
def countOcc (pat : List Char) : List Char → Nat
  | [] => 0
  | c :: cs => (if leadsWith pat (c :: cs) then 1 else 0) + countOcc pat cs

/-- Case normalisation for the case-insensitive scan (spec §4.2). -/
def lowercase (s : String) : List Char :=
  s.toList.map Char.toLower

/-- Modelled from the spec: the weighted keyword/phrase lexicon of the Rulebook
Scorer (`engine1_text.py` is not in the available source).  Spec §4.2: "for
each dimension, maintain a weighted keyword/phrase lexicon". -/
def lexicon : String → List (String × ℚ)
  | "Heritage_Harm" => [("listed building", 2), ("heritage", 1), ("conservation area", 1)]
  | "Design_Quality" => [("high quality design", 2), ("well designed", 1)]
  | "Amenity_Harm" => [("overlooking", 1), ("loss of light", 1), ("noise", 1)]
  | "Ecology_Harm" => [("protected species", 2), ("habitat loss", 1)]
  | "GB_Harm" => [("green belt", 1), ("openness", 1)]
  | "Flood_Risk" => [("flood zone", 1), ("flood risk", 1)]
  | "Economic_Benefit" => [("jobs", 1), ("economic growth", 1)]
  | "Social_Benefit" => [("affordable housing", 2), ("community", 1)]
  | "Policy_Compliance" => [("in accordance with the development plan", 2), ("complies with policy", 1)]
  | _ => []

/-- Modelled from the spec: per-dimension score of the Rulebook Scorer
(`engine1_text.py` is missing).  Spec §4.2: case-insensitive scan, scores
"accumulate … bounded to a fixed numeric range (clip, don't overflow) — e.g.
via count-weighted sum capped at a maximum"; the cap is 3, matching the 0–3
scale of the context sliders. -/
def scoreDim (text : String) (dim : String) : ℚ :=
  let s := ((lexicon dim).map
    (fun pw => pw.2 * (countOcc (lowercase pw.1) (lowercase text) : ℚ))).sum
  if s ≤ 3 then s else 3

/-- Modelled from the spec: `base_scores_from_text` of `engine1_text.py`
(missing from the available source).  Spec §4.2: returns a Rulebook Score Map
with all dimension keys present, defaulting to zero; absent text degrades to
the all-zero map, not an error. -/
def base_scores_from_text (text : Option String) : ScoreMap :=
  dimensions.map (fun d => (d, scoreDim (text.getD "") d))

/-! ## Multi-Document Aggregator (Engine 1) -/

/-- Score of dimension `d` in map `m`, defaulting to 0. -/
def scoreOf (m : ScoreMap) (d : String) : ℚ :=
  (List.lookup d m).getD 0

/-- Modelled from the spec: X10 "Spin Index" of the Aggregator
(`engine1_text.py` is missing).  Spec §4.3: a divergence measure between the
PS and CR score maps — the mean absolute difference across all dimensions;
0 when either map is absent. -/
def spin_index (ps cr : Option ScoreMap) : ℚ :=
  match ps, cr with
  | some p, some c =>
      ((dimensions.map (fun d => |scoreOf p d - scoreOf c d|)).sum) / (dimensions.length : ℚ)
  | _, _ => 0

/-- Modelled from the spec: the per-dimension combination policy of the
Aggregator (`engine1_text.py` is missing).  Spec §4.3 leaves the policy open
between max and mean; the §8 end-to-end example fixes "max", which is used
here: worst-case framing across PS and CR, falling back to whichever map is
present. -/
def combineDim (ps cr : Option ScoreMap) (d : String) : ℚ :=
  match ps, cr with
  | some p, some c => max (scoreOf p d) (scoreOf c d)
  | some p, none => scoreOf p d
  | none, some c => scoreOf c d
  | none, none => 0

/-- Modelled from the spec: the Document-Variable Map produced by the
Aggregator (`engine1_text.py` is missing).  X1–X9 from the combination
policy, X10 the Spin Index, and the Appeal score map carried through under
the reserved key `Appeal_Scores` when present (spec §4.3). -/
def docFeatures (ps cr ap : Option ScoreMap) : List (String × Value) :=
  (xNames.zip dimensions).map (fun xd => (xd.1, Value.num (combineDim ps cr xd.2)))
    ++ [("X10_Spin_Index", Value.num (spin_index ps cr))]
    ++ (match ap with
        | some m => [("Appeal_Scores", Value.table m)]
        | none => [])

/-- Modelled from the spec: `engine1_run` of `engine1_text.py` (missing from
the available source).  Spec §4.3: at least one of PS or CR must be present,
otherwise the Aggregator fails with `MissingEvidenceError`; returns the two
per-document score maps and the Document-Variable Map. -/
def engine1_run (ps_text cr_text ap_text : Option String) :
    Except EngineError (Option ScoreMap × Option ScoreMap × List (String × Value)) :=
  if ps_text.isNone && cr_text.isNone then
    .error .MissingEvidenceError
  else
    let ps_scores := ps_text.map (fun t => base_scores_from_text (some t))
    let cr_scores := cr_text.map (fun t => base_scores_from_text (some t))
    let ap_scores := ap_text.map (fun t => base_scores_from_text (some t))
    .ok (ps_scores, cr_scores, docFeatures ps_scores cr_scores ap_scores)

/-! ## Context Feature Builder (Engine 2) -/

/-- The six structured inputs of Engine 2 (spec §4.4). -/
structure ContextInputs where
  housing_pressure : ℚ
  tb_status : ℤ
  plan_age : ℤ
  committee_attitude : ℚ
  gb_flag : ℤ
  floodzone_level : ℤ
  deriving DecidableEq, Repr

/-- Range validation of the six context inputs (spec §4.4). -/
def contextOk (i : ContextInputs) : Bool :=
  (0 ≤ i.housing_pressure && i.housing_pressure ≤ 3) &&
  (0 ≤ i.tb_status && i.tb_status ≤ 2) &&
  (0 ≤ i.plan_age && i.plan_age ≤ 2) &&
  (0 ≤ i.committee_attitude && i.committee_attitude ≤ 3) &&
  (0 ≤ i.gb_flag && i.gb_flag ≤ 1) &&
  (0 ≤ i.floodzone_level && i.floodzone_level ≤ 3)

/-- The Context-Variable Map X11–X16: one-to-one from the six inputs, no
derived cross-terms (spec §4.4, §6 key vocabulary). -/
def ctxMap (i : ContextInputs) : List (String × ℚ) :=
  [("X11_Housing_Pressure", i.housing_pressure),
   ("X12_TB_Status", (i.tb_status : ℚ)),
   ("X13_Plan_Age", (i.plan_age : ℚ)),
   ("X14_Committee_Attitude", i.committee_attitude),
   ("X15_GB_Flag", (i.gb_flag : ℚ)),
   ("X16_Floodzone_Level", (i.floodzone_level : ℚ))]

/-- Modelled from the spec: `build_context_features` of `engine2_context.py`
(missing from the available source).  Spec §4.4: pure function from the six
inputs to X11–X16 with range validation; out-of-range input fails with
`InvalidContextError`, no silent clamping. -/
def build_context_features (i : ContextInputs) : Except EngineError (List (String × ℚ)) :=
  if contextOk i then .ok (ctxMap i) else .error .InvalidContextError

/-! ## Prediction Model (Engine 3) -/

/-- Modelled from the spec: the fixed, versioned coefficient table of
`engine3_model.py` (missing from the available source).  Spec §4.5/§9: a
pinned mapping from every variable and interaction name to its coefficient;
harms carry negative weights, benefits positive ones. -/
def coefficients : List (String × ℚ) :=
  [("X1_Heritage_Harm", -4/5), ("X2_Design_Quality", 1/2), ("X3_Amenity_Harm", -3/5),
   ("X4_Ecology_Harm", -1/2), ("X5_GB_Harm", -9/10), ("X6_Flood_Risk", -7/10),
   ("X7_Economic_Benefit", 3/5), ("X8_Social_Benefit", 1/2), ("X9_Policy_Compliance", 7/10),
   ("X10_Spin_Index", -2/5),
   ("X11_Housing_Pressure", 1/2), ("X12_TB_Status", 3/5), ("X13_Plan_Age", 3/10),
   ("X14_Committee_Attitude", 2/5), ("X15_GB_Flag", -1), ("X16_Floodzone_Level", -1/2),
   ("Z1_Heritage_x_GBFlag", -1/2), ("Z2_Flood_x_Floodzone", -2/5)]

/-- Modelled from the spec: the model intercept (spec §4.5). -/
def intercept : ℚ := 1/5

/-- Modelled from the spec: the fixed, named interaction terms of the
Prediction Model (spec §4.5), each a product of two named variables —
heritage harm × green-belt flag and flood risk × flood-zone level. -/
def interactionDefs : List (String × (String × String)) :=
  [("Z1_Heritage_x_GBFlag", ("X1_Heritage_Harm", "X15_GB_Flag")),
   ("Z2_Flood_x_Floodzone", ("X6_Flood_Risk", "X16_Floodzone_Level"))]

/-- Numeric value of key `k` in the Combined Variable Map; unknown or missing
input variables default to 0 (spec §4.5, interaction inputs). -/
def numOf (X : List (String × Value)) (k : String) : ℚ :=
  match List.lookup k X with
  | some (.num q) => q
  | _ => 0

/-- The computed interaction terms for a Combined Variable Map. -/
def interactionsOf (X : List (String × Value)) : List (String × ℚ) :=
  interactionDefs.map (fun zd => (zd.1, numOf X zd.2.1 * numOf X zd.2.2))

/-- Numeric payload of a `Value` (the reserved table value never reaches a
coefficient multiplication: its key has no coefficient entry). -/
def valNum : Value → ℚ
  | .num q => q
  | .table _ => 0

/-- One row of the contribution breakdown (spec §3 Prediction Record). -/
structure Contribution where
  name : String
  type : String
  value : ℚ
  coefficient : ℚ
  contribution : ℚ
  abs_contribution : ℚ
  deriving DecidableEq, Repr

/-- Build one contribution row: contribution = value × coefficient,
abs_contribution = |contribution| (spec §4.5). -/
def mkContribution (ty name : String) (v c : ℚ) : Contribution :=
  ⟨name, ty, v, c, v * c, |v * c|⟩

/-- Modelled from the spec: contribution rows for the entries of the Combined
Variable Map, in input order; a key with no coefficient entry fails with
`UnscoredVariableError` (spec §4.5). -/
def varContributions : List (String × Value) → Except EngineError (List Contribution)
  | [] => .ok []
  | (k, v) :: rest =>
    match List.lookup k coefficients with
    | none => .error .UnscoredVariableError
    | some c =>
      match varContributions rest with
      | .error e => .error e
      | .ok tail => .ok (mkContribution "variable" k (valNum v) c :: tail)

/-- Modelled from the spec: contribution rows for the interaction terms, in
their fixed order, with the same coefficient-coverage check (spec §4.5). -/
def interContributions : List (String × ℚ) → Except EngineError (List Contribution)
  | [] => .ok []
  | (k, v) :: rest =>
    match List.lookup k coefficients with
    | none => .error .UnscoredVariableError
    | some c =>
      match interContributions rest with
      | .error e => .error e
      | .ok tail => .ok (mkContribution "interaction" k v c :: tail)

/-- All contribution rows in stable input order: the Combined Variable Map's
entries first, then the interaction terms. -/
def allContributions (X : List (String × Value)) : Except EngineError (List Contribution) :=
  match varContributions X, interContributions (interactionsOf X) with
  | .error e, _ => .error e
  | .ok _, .error e => .error e
  | .ok vs, .ok zs => .ok (vs ++ zs)

/-- The linear score Z_total of a contribution list: Σ value × coefficient
plus the intercept (spec §4.5). -/
def zTotalOf (rows : List Contribution) : ℚ :=
  ((rows.map (fun r => r.contribution)).sum) + intercept

/-- Comparison used to rank contribution rows: descending absolute
contribution. -/
def contribGE (a b : Contribution) : Bool :=
  b.abs_contribution ≤ a.abs_contribution

/-- The three-band risk rating (spec §3). -/
inductive Rating where
  | Green
  | Amber
  | Red
  deriving DecidableEq, Repr

/-- Modelled from the spec: the numerically stable logistic of
`engine3_model.py` (missing from the available source).  Spec §4.5: the
standard numerically stable formulation — for nonnegative z compute
1/(1 + e^(−z)), otherwise e^z/(1 + e^z), so the exponential argument is
never positive. -/
noncomputable def logistic (z : ℝ) : ℝ :=
  if 0 ≤ z then 1 / (1 + Real.exp (-z)) else Real.exp z / (1 + Real.exp z)

/-- Modelled from the spec: the rating thresholds pinned by the spec's stated
configuration — Green at probability ≥ 0.66, Red below 0.33, Amber between
(spec §4.5). -/
noncomputable def ratingOf (p : ℝ) : Rating :=
  if (0.66 : ℝ) ≤ p then .Green else if p < (0.33 : ℝ) then .Red else .Amber

/-- The Prediction Record (spec §3). -/
structure PredictionRecord where
  probability : ℝ
  linear_score : ℚ
  rating : Rating
  interactions : List (String × ℚ)
  contributions : List Contribution

/-- Modelled from the spec: `predict_approval_probability` of
`engine3_model.py` (missing from the available source).  Spec §4.5: computes
the interaction terms, the linear score over the fixed coefficient table
(failing with `UnscoredVariableError` on any uncovered key), the logistic
probability, the thresholded rating, and the contribution list ranked by
absolute contribution descending with ties in stable input order. -/
noncomputable def predict_approval_probability (X : List (String × Value)) :
    Except EngineError PredictionRecord :=
  match allContributions X with
  | .error e => .error e
  | .ok rows =>
    let z := zTotalOf rows
    let p := logistic (z : ℝ)
    .ok { probability := p
          linear_score := z
          rating := ratingOf p
          interactions := interactionsOf X
          contributions := rows.mergeSort contribGE }

/-! ## The Streamlit caller (`src/app.py`) -/

/-- Python `dict` insertion on an insertion-ordered association list: an
existing key keeps its position and gets the new value, a new key is appended
at the end. -/
def dictInsert (m : List (String × α)) (k : String) (v : α) : List (String × α) :=
  if (m.map Prod.fst).contains k then
    m.map (fun p => if p.1 = k then (k, v) else p)
  else
    m ++ [(k, v)]

/-- Python `dict.update`: insert every entry of `new`, in order, into `m`. -/
def dictUpdate (m new : List (String × α)) : List (String × α) :=
  new.foldl (fun acc p => dictInsert acc p.1 p.2) m

/-- Embeds `src/app.py` lines 264–266: `X_all = {}` then
`X_all.update(doc_features)` then `X_all.update(ctx_features)`. -/
def buildXAll (doc ctx : List (String × Value)) : List (String × Value) :=
  dictUpdate (dictUpdate [] doc) ctx

/-- Context-Variable Map entries as `Value`s, for merging into the Combined
Variable Map. -/
def ctxValues (c : List (String × ℚ)) : List (String × Value) :=
  c.map (fun p => (p.1, Value.num p.2))

/-- Embeds the `run_engine01` click handler, `src/app.py` lines 97–110: if
neither a PS nor a CR file is uploaded, an error is shown and `engine1_run`
is never called (`none`); otherwise `engine1_run` runs on the extracted
texts. -/
def run_engine01_handler (ps_text cr_text ap_text : Option String) :
    Option (Except EngineError (Option ScoreMap × Option ScoreMap × List (String × Value))) :=
  if ps_text.isSome || cr_text.isSome then
    some (engine1_run ps_text cr_text ap_text)
  else
    none

/-- The per-case flow of `src/app.py`: Engine 0&1 on the documents (lines
97–114), Engine 2 on the context inputs (lines 219–228), then Engine 3 on
the merged map (lines 263–269); each later stage runs only once the earlier
stages have produced their outputs. -/
noncomputable def pipeline (ps_text cr_text ap_text : Option String) (i : ContextInputs) :
    Except EngineError PredictionRecord := do
  let r ← engine1_run ps_text cr_text ap_text
  let c ← build_context_features i
  predict_approval_probability (buildXAll r.2.2 (ctxValues c))

/-- A document uploaded to the Repository/Batch tab, reduced to its name and
extracted text (the Text Extractor is outside the core, spec §2). -/
structure UploadedFile where
  name : String
  text : Option String
  deriving DecidableEq, Repr

/-- One repository row, `src/app.py` lines 370–373: the file name as CaseID
together with its Rulebook scores. -/
def batchRow (f : UploadedFile) : String × ScoreMap :=
  (f.name, base_scores_from_text f.text)

/-- Embeds the `run_batch` click handler, `src/app.py` lines 364–378: with no
uploaded files nothing happens; otherwise a fresh row list is built, one row
per uploaded file, and assigned to `repo_df`. -/
def run_batch (repo_df : Option (List (String × ScoreMap))) (files : List UploadedFile) :
    Option (List (String × ScoreMap)) :=
  if files.isEmpty then repo_df
  else some (files.map batchRow)

/-! ## Documented variable ranges -/

/-- Whether every numeric entry of a Combined Variable Map lies within its
documented range (spec §3, §4.4): document scores and the 0–3 sliders in
[0, 3], the ordinal inputs in their finite sets. -/
def inDocumentedRanges (X : List (String × Value)) : Bool :=
  X.all (fun p =>
    match p.2 with
    | .num q =>
        if p.1 ∈ xNames ∨ p.1 = "X10_Spin_Index" ∨ p.1 = "X11_Housing_Pressure"
            ∨ p.1 = "X14_Committee_Attitude" then
          decide (0 ≤ q ∧ q ≤ 3)
        else if p.1 = "X12_TB_Status" ∨ p.1 = "X13_Plan_Age" then
          decide (q = 0 ∨ q = 1 ∨ q = 2)
        else if p.1 = "X15_GB_Flag" then
          decide (q = 0 ∨ q = 1)
        else if p.1 = "X16_Floodzone_Level" then
          decide (q = 0 ∨ q = 1 ∨ q = 2 ∨ q = 3)
        else true
    | .table _ => true)

/-! ## Concrete example inputs -/

/-- A small in-range Combined Variable Map used to exercise the Prediction
Model on concrete data. -/
def exampleMap : List (String × Value) :=
  [("X1_Heritage_Harm", Value.num 1), ("X15_GB_Flag", Value.num 1)]

/-- The contribution rows the model computes for `exampleMap`: its two
variables in input order followed by the two interaction terms. -/
def exampleRows : List Contribution :=
  [mkContribution "variable" "X1_Heritage_Harm" 1 (-4/5),
   mkContribution "variable" "X15_GB_Flag" 1 (-1),
   mkContribution "interaction" "Z1_Heritage_x_GBFlag" (1 * 1) (-1/2),
   mkContribution "interaction" "Z2_Flood_x_Floodzone" (0 * 0) (-2/5)]

/-! ## Shared lemmas -/

theorem logistic_eq_def (z : ℝ) : logistic z = 1 / (1 + Real.exp (-z)) := by
  unfold logistic
  split
  · rfl
  · have h1 : (0 : ℝ) < Real.exp z := Real.exp_pos z
    rw [Real.exp_neg]
    rw [div_eq_div_iff (by positivity) (by positivity)]
    field_simp
    ring

theorem logistic_pos (z : ℝ) : 0 < logistic z := by
  unfold logistic
  split <;> positivity

theorem logistic_lt_one (z : ℝ) : logistic z < 1 := by
  unfold logistic
  split
  · rw [div_lt_one (by positivity)]
    have := Real.exp_pos (-z)
    linarith
  · rw [div_lt_one (by positivity)]
    have := Real.exp_pos z
    linarith

theorem predict_ok_of_contributions (X : List (String × Value)) (rows : List Contribution)
    (h : allContributions X = .ok rows) :
    predict_approval_probability X =
      .ok { probability := logistic ((zTotalOf rows : ℚ) : ℝ)
            linear_score := zTotalOf rows
            rating := ratingOf (logistic ((zTotalOf rows : ℚ) : ℝ))
            interactions := interactionsOf X
            contributions := rows.mergeSort contribGE } := by
  unfold predict_approval_probability
  rw [h]

theorem varContributions_unscored (X : List (String × Value)) (k : String)
    (hk : k ∈ X.map Prod.fst) (hc : List.lookup k coefficients = none) :
    varContributions X = .error .UnscoredVariableError := by
  induction X with
  | nil => simp at hk
  | cons p rest ih =>
    obtain ⟨k1, v1⟩ := p
    simp only [List.map_cons, List.mem_cons] at hk
    rcases hl : List.lookup k1 coefficients with _ | c
    · simp only [varContributions, hl]
    · rcases hk with rfl | hmem
      · rw [hc] at hl
        cases hl
      · simp only [varContributions, hl, ih hmem]

theorem lookup_overwrite_ne {α : Type} (m : List (String × α)) (k k' : String) (v : α)
    (h : k' ≠ k) :
    List.lookup k' (m.map (fun p => if p.1 = k then (k, v) else p)) = List.lookup k' m := by
  induction m with
  | nil => rfl
  | cons p rest ih =>
    obtain ⟨k1, v1⟩ := p
    by_cases h1 : k1 = k
    · subst h1
      have hb : (k' == k1) = false := by simpa using h
      simp [List.lookup_cons, hb, ih]
    · simp only [List.map_cons, if_neg h1, List.lookup_cons, ih]

theorem lookup_overwrite_self {α : Type} (m : List (String × α)) (k : String) (v : α)
    (h : k ∈ m.map Prod.fst) :
    List.lookup k (m.map (fun p => if p.1 = k then (k, v) else p)) = some v := by
  induction m with
  | nil => simp at h
  | cons p rest ih =>
    obtain ⟨k1, v1⟩ := p
    by_cases h1 : k1 = k
    · subst h1
      simp [List.lookup_cons]
    · have hmem : k ∈ rest.map Prod.fst := by
        rcases (by simpa using h : k = k1 ∨ k ∈ rest.map Prod.fst) with h' | h'
        · exact absurd h'.symm h1
        · exact h'
      have hb : (k == k1) = false := by
        simp only [beq_eq_false_iff_ne, ne_eq]
        exact fun hkk => h1 hkk.symm
      simp only [List.map_cons, if_neg h1, List.lookup_cons, hb, ih hmem]

theorem lookup_dictInsert {α : Type} (m : List (String × α)) (k k' : String) (v : α) :
    List.lookup k' (dictInsert m k v) = if k' = k then some v else List.lookup k' m := by
  unfold dictInsert
  by_cases hc : (m.map Prod.fst).contains k = true
  · rw [if_pos hc]
    have hmem : k ∈ m.map Prod.fst := by simpa using hc
    by_cases hk : k' = k
    · subst hk
      rw [if_pos rfl, lookup_overwrite_self m k' v hmem]
    · rw [if_neg hk, lookup_overwrite_ne m k k' v hk]
  · rw [if_neg hc]
    have hmem : k ∉ m.map Prod.fst := by simpa using hc
    rw [List.lookup_append]
    by_cases hk : k' = k
    · subst hk
      have : List.lookup k' m = none := by
        rw [List.lookup_eq_none_iff]
        intro p hp
        simp only [bne_iff_ne, ne_eq]
        intro hkp
        exact hmem (hkp ▸ List.mem_map_of_mem Prod.fst hp)
      simp [this]
    · have hb : (k' == k) = false := by simpa using hk
      simp only [List.lookup_cons, hb, List.lookup_nil, if_neg hk]
      cases List.lookup k' m <;> rfl

theorem lookup_dictUpdate {α : Type} (new m : List (String × α)) (k : String)
    (hnd : (new.map Prod.fst).Nodup) :
    List.lookup k (dictUpdate m new) = (List.lookup k new).or (List.lookup k m) := by
  induction new generalizing m with
  | nil => rfl
  | cons p rest ih =>
    obtain ⟨k1, v1⟩ := p
    simp only [List.map_cons, List.nodup_cons] at hnd
    have step : dictUpdate m ((k1, v1) :: rest) = dictUpdate (dictInsert m k1 v1) rest := rfl
    rw [step, ih (dictInsert m k1 v1) hnd.2, lookup_dictInsert]
    by_cases hk : k = k1
    · subst hk
      have hrest : List.lookup k rest = none := by
        rw [List.lookup_eq_none_iff]
        intro p hp
        simp only [bne_iff_ne, ne_eq]
        intro hkp
        exact hnd.1 (hkp ▸ List.mem_map_of_mem Prod.fst hp)
      simp [List.lookup_cons, hrest]
    · have hb : (k == k1) = false := by simpa using hk
      simp [List.lookup_cons, hb, if_neg hk]

theorem contribGE_trans (a b c : Contribution)
    (h1 : contribGE a b) (h2 : contribGE b c) : contribGE a c := by
  simp only [contribGE, decide_eq_true_eq] at h1 h2 ⊢
  exact le_trans h2 h1

theorem contribGE_total (a b : Contribution) : contribGE a b || contribGE b a := by
  simp only [contribGE, Bool.or_eq_true, decide_eq_true_eq]
  exact le_total b.abs_contribution a.abs_contribution

theorem varContributions_ok (X : List (String × Value)) (rows : List Contribution)
    (h : varContributions X = .ok rows) :
    rows.map (fun r => r.name) = X.map Prod.fst ∧
    ∀ r ∈ rows, r.contribution = r.value * r.coefficient ∧
      r.abs_contribution = |r.contribution| := by
  induction X generalizing rows with
  | nil =>
    simp only [varContributions, Except.ok.injEq] at h
    subst h
    simp
  | cons p rest ih =>
    obtain ⟨k1, v1⟩ := p
    rcases hl : List.lookup k1 coefficients with _ | c
    · simp only [varContributions, hl] at h
      exact Except.noConfusion h
    · rcases hrec : varContributions rest with e | tail
      · simp only [varContributions, hl, hrec] at h
        exact Except.noConfusion h
      · simp only [varContributions, hl, hrec, Except.ok.injEq] at h
        subst h
        obtain ⟨hn, hp⟩ := ih tail hrec
        refine ⟨by simp [mkContribution, hn], ?_⟩
        intro r hr
        rcases List.mem_cons.mp hr with rfl | hr'
        · simp [mkContribution]
        · exact hp r hr'

theorem interContributions_ok (l : List (String × ℚ)) (rows : List Contribution)
    (h : interContributions l = .ok rows) :
    rows.map (fun r => r.name) = l.map Prod.fst ∧
    ∀ r ∈ rows, r.contribution = r.value * r.coefficient ∧
      r.abs_contribution = |r.contribution| := by
  induction l generalizing rows with
  | nil =>
    simp only [interContributions, Except.ok.injEq] at h
    subst h
    simp
  | cons p rest ih =>
    obtain ⟨k1, v1⟩ := p
    rcases hl : List.lookup k1 coefficients with _ | c
    · simp only [interContributions, hl] at h
      exact Except.noConfusion h
    · rcases hrec : interContributions rest with e | tail
      · simp only [interContributions, hl, hrec] at h
        exact Except.noConfusion h
      · simp only [interContributions, hl, hrec, Except.ok.injEq] at h
        subst h
        obtain ⟨hn, hp⟩ := ih tail hrec
        refine ⟨by simp [mkContribution, hn], ?_⟩
        intro r hr
        rcases List.mem_cons.mp hr with rfl | hr'
        · simp [mkContribution]
        · exact hp r hr'

theorem allContributions_ok (X : List (String × Value)) (rows : List Contribution)
    (h : allContributions X = .ok rows) :
    rows.map (fun r => r.name) = X.map Prod.fst ++ interactionDefs.map Prod.fst ∧
    ∀ r ∈ rows, r.contribution = r.value * r.coefficient ∧
      r.abs_contribution = |r.contribution| := by
  rcases hv : varContributions X with e | vs
  · simp only [allContributions, hv] at h
    exact Except.noConfusion h
  · rcases hi : interContributions (interactionsOf X) with e | zs
    · simp only [allContributions, hv, hi] at h
      exact Except.noConfusion h
    · simp only [allContributions, hv, hi, Except.ok.injEq] at h
      subst h
      obtain ⟨hvn, hvp⟩ := varContributions_ok X vs hv
      obtain ⟨hin, hip⟩ := interContributions_ok (interactionsOf X) zs hi
      constructor
      · have hnames : (interactionsOf X).map Prod.fst = interactionDefs.map Prod.fst := by
          simp [interactionsOf]
        rw [List.map_append, hvn, hin, hnames]
      · intro r hr
        rcases List.mem_append.mp hr with hr' | hr'
        · exact hvp r hr'
        · exact hip r hr'

/-! ## Claim theorems -/

/-- Claim C6: for absent (`none`) or empty document text, the Rulebook Scorer
returns the full fixed set of dimension keys with every score zero, and is a
total function (it cannot raise). -/
theorem rulebook_scorer_absent_input_all_zero :
    base_scores_from_text none = dimensions.map (fun d => (d, (0 : ℚ))) ∧
    base_scores_from_text (some "") = dimensions.map (fun d => (d, (0 : ℚ))) := by
  constructor <;>
    norm_num [base_scores_from_text, dimensions, scoreDim, lexicon, lowercase, countOcc]

/-- Claim C7: the Aggregator's Spin Index is symmetric in the Planning
Statement and Committee/Officer Report score maps. -/
theorem spin_index_symmetric (ps cr : Option ScoreMap) :
    spin_index ps cr = spin_index cr ps := by
  cases ps with
  | none => cases cr <;> rfl
  | some p =>
    cases cr with
    | none => rfl
    | some c =>
      have hext : (fun d => |scoreOf p d - scoreOf c d|) = (fun d => |scoreOf c d - scoreOf p d|) := by
        funext d
        exact abs_sub_comm _ _
      show (List.map (fun d => |scoreOf p d - scoreOf c d|) dimensions).sum / (dimensions.length : ℚ)
          = (List.map (fun d => |scoreOf c d - scoreOf p d|) dimensions).sum / (dimensions.length : ℚ)
      rw [hext]

/-- Claim C8: the Context Feature Builder accepts every in-range combination
of its six inputs, returning the exact (unclamped) values as X11–X16, and
fails with `InvalidContextError` on any out-of-range input. -/
theorem context_builder_range_validation (i : ContextInputs) :
    (contextOk i = true → build_context_features i = .ok (ctxMap i)) ∧
    (contextOk i = false → build_context_features i = .error .InvalidContextError) := by
  constructor <;> intro h <;> simp [build_context_features, h]

/-- Claim C8 witness: both all-minimum and all-maximum boundary inputs are
accepted with their exact values, and inputs one unit outside a range are
rejected. -/
theorem context_builder_range_validation_witness :
    build_context_features ⟨0, 0, 0, 0, 0, 0⟩ = .ok (ctxMap ⟨0, 0, 0, 0, 0, 0⟩) ∧
    build_context_features ⟨3, 2, 2, 3, 1, 3⟩ = .ok (ctxMap ⟨3, 2, 2, 3, 1, 3⟩) ∧
    build_context_features ⟨4, 2, 2, 3, 1, 3⟩ = .error .InvalidContextError ∧
    build_context_features ⟨3, 3, 2, 3, 1, 3⟩ = .error .InvalidContextError ∧
    build_context_features ⟨3, 2, 3, 3, 1, 3⟩ = .error .InvalidContextError ∧
    build_context_features ⟨3, 2, 2, 4, 1, 3⟩ = .error .InvalidContextError ∧
    build_context_features ⟨3, 2, 2, 3, 2, 3⟩ = .error .InvalidContextError ∧
    build_context_features ⟨3, 2, 2, 3, 1, 4⟩ = .error .InvalidContextError ∧
    build_context_features ⟨-1, 0, 0, 0, 0, 0⟩ = .error .InvalidContextError :=
  ⟨(context_builder_range_validation _).1 (by decide),
   (context_builder_range_validation _).1 (by decide),
   (context_builder_range_validation _).2 (by decide),
   (context_builder_range_validation _).2 (by decide),
   (context_builder_range_validation _).2 (by decide),
   (context_builder_range_validation _).2 (by decide),
   (context_builder_range_validation _).2 (by decide),
   (context_builder_range_validation _).2 (by decide),
   (context_builder_range_validation _).2 (by decide)⟩

/-- Claim C4: with both the Planning Statement and the Committee/Officer
Report absent, the Aggregator fails with `MissingEvidenceError`, the caller's
guard refuses to invoke Engine 0&1 at all, and the per-case flow never
reaches the Prediction Model (it yields the error, never a record). -/
theorem missing_both_documents_hard_stop (ap_text : Option String) (i : ContextInputs) :
    engine1_run none none ap_text = .error .MissingEvidenceError ∧
    run_engine01_handler none none ap_text = none ∧
    pipeline none none ap_text i = .error .MissingEvidenceError := by
  refine ⟨rfl, rfl, ?_⟩
  unfold pipeline
  rfl

/-- Claim C5: a Combined Variable Map containing any key with no entry in
the fixed coefficient table makes the Prediction Model fail with
`UnscoredVariableError`; no Prediction Record is returned. -/
theorem unscored_variable_fails (X : List (String × Value)) (k : String)
    (hk : k ∈ X.map Prod.fst) (hc : List.lookup k coefficients = none) :
    allContributions X = .error .UnscoredVariableError ∧
    predict_approval_probability X = .error .UnscoredVariableError ∧
    ∀ rec, predict_approval_probability X ≠ .ok rec := by
  have hv := varContributions_unscored X k hk hc
  have ha : allContributions X = .error .UnscoredVariableError := by
    unfold allContributions
    rw [hv]
  have hp : predict_approval_probability X = .error .UnscoredVariableError := by
    unfold predict_approval_probability
    rw [ha]
  exact ⟨ha, hp, fun rec h => by rw [hp] at h; cases h⟩

/-- Claim C5 witness: the reserved `Appeal_Scores` key, which has no
coefficient entry, makes the model fail rather than being silently
dropped. -/
theorem unscored_variable_fails_witness :
    predict_approval_probability [("Appeal_Scores", Value.table [])]
      = .error .UnscoredVariableError :=
  (unscored_variable_fails [("Appeal_Scores", Value.table [])] "Appeal_Scores"
    (by decide) (by decide)).2.1

/-- Claim C9: the map handed to the Prediction Model inserts the
Document-Variable Map first and the Context-Variable Map second, so a key
present in both resolves to the context value, and every key only in the
Document-Variable Map (such as the reserved `Appeal_Scores` entry) is
forwarded with its document value unchanged. -/
theorem xall_update_semantics (doc ctx : List (String × Value)) (k : String)
    (hdoc : (doc.map Prod.fst).Nodup) (hctx : (ctx.map Prod.fst).Nodup) :
    List.lookup k (buildXAll doc ctx) = (List.lookup k ctx).or (List.lookup k doc) := by
  unfold buildXAll
  rw [lookup_dictUpdate ctx _ k hctx, lookup_dictUpdate doc [] k hdoc]
  cases List.lookup k ctx <;> cases List.lookup k doc <;> rfl

/-- Claim C9 witness: on a concrete overlap the context value wins, and the
reserved non-X entry of the document map is forwarded unchanged. -/
theorem xall_update_semantics_witness :
    List.lookup "X15_GB_Flag"
        (buildXAll [("X15_GB_Flag", Value.num 0), ("Appeal_Scores", Value.table [])]
          [("X15_GB_Flag", Value.num 1)])
      = some (Value.num 1) ∧
    List.lookup "Appeal_Scores"
        (buildXAll [("X15_GB_Flag", Value.num 0), ("Appeal_Scores", Value.table [])]
          [("X15_GB_Flag", Value.num 1)])
      = some (Value.table []) :=
  ⟨(xall_update_semantics _ _ "X15_GB_Flag" (by decide) (by decide)).trans (by decide),
   (xall_update_semantics _ _ "Appeal_Scores" (by decide) (by decide)).trans (by decide)⟩

/-- Claim C10 counterexample: running the batch over one uploaded document
with one row already in the store leaves only the new row — the store does
not keep the row it held before the run, contradicting the claim that rows
are added to the existing store. -/
theorem run_batch_discards_prior_rows :
    run_batch (some [("old-case", [])]) [⟨"new.pdf", none⟩]
      = some [batchRow ⟨"new.pdf", none⟩] ∧
    ("old-case", ([] : ScoreMap)) ∉
      (run_batch (some [("old-case", [])]) [⟨"new.pdf", none⟩]).getD [] := by
  exact ⟨rfl, by decide⟩

/-- Claim C10 amended: a batch run over a nonempty upload set replaces the
tabular store with exactly one row per uploaded document — prior rows are
discarded — while a run with no files leaves the store unchanged. -/
theorem run_batch_rebuilds_store (repo : Option (List (String × ScoreMap)))
    (files : List UploadedFile) :
    (files.isEmpty = false →
        run_batch repo files = some (files.map batchRow) ∧
        (files.map batchRow).length = files.length) ∧
    (files.isEmpty = true → run_batch repo files = repo) := by
  constructor <;> intro h <;> simp [run_batch, h]

/-- Claim C10 amended witness: a singleton batch replaces a one-row store
with the single new row, and an empty batch leaves the store alone. -/
theorem run_batch_rebuilds_store_witness :
    run_batch (some [("old-case", [])]) [⟨"new.pdf", none⟩]
      = some ([(⟨"new.pdf", none⟩ : UploadedFile)].map batchRow) ∧
    run_batch (some [("old-case", [])]) ([] : List UploadedFile)
      = some [("old-case", [])] :=
  ⟨((run_batch_rebuilds_store _ _).1 (by decide)).1,
   (run_batch_rebuilds_store _ _).2 (by decide)⟩

/-- Claim C1: on any in-range Combined Variable Map the model's probability
is the logistic of the linear score, the stable formulation agrees with
1/(1 + e^(−Z_total)) exactly, and the probability is strictly between
0 and 1. -/
theorem probability_stable_logistic_open_interval (X : List (String × Value))
    (rows : List Contribution) (hr : inDocumentedRanges X = true)
    (h : allContributions X = .ok rows) :
    predict_approval_probability X =
      .ok { probability := logistic ((zTotalOf rows : ℚ) : ℝ)
            linear_score := zTotalOf rows
            rating := ratingOf (logistic ((zTotalOf rows : ℚ) : ℝ))
            interactions := interactionsOf X
            contributions := rows.mergeSort contribGE } ∧
    logistic ((zTotalOf rows : ℚ) : ℝ)
      = 1 / (1 + Real.exp (-((zTotalOf rows : ℚ) : ℝ))) ∧
    0 < logistic ((zTotalOf rows : ℚ) : ℝ) ∧
    logistic ((zTotalOf rows : ℚ) : ℝ) < 1 :=
  ⟨predict_ok_of_contributions X rows h, logistic_eq_def _, logistic_pos _,
   logistic_lt_one _⟩

/-- Claim C1 witness: on a concrete in-range map the returned probability is
the stable logistic of the linear score and lies strictly between 0 and 1. -/
theorem probability_stable_logistic_open_interval_witness :
    inDocumentedRanges exampleMap = true ∧
    logistic ((zTotalOf exampleRows : ℚ) : ℝ)
      = 1 / (1 + Real.exp (-((zTotalOf exampleRows : ℚ) : ℝ))) ∧
    0 < logistic ((zTotalOf exampleRows : ℚ) : ℝ) ∧
    logistic ((zTotalOf exampleRows : ℚ) : ℝ) < 1 :=
  ⟨by decide,
   (probability_stable_logistic_open_interval exampleMap exampleRows (by decide) rfl).2.1,
   (probability_stable_logistic_open_interval exampleMap exampleRows (by decide) rfl).2.2.1,
   (probability_stable_logistic_open_interval exampleMap exampleRows (by decide) rfl).2.2.2⟩

/-- Claim C2: the rating is determined from the probability by the fixed
thresholds — probability ≥ 0.66 gives Green, probability < 0.33 gives Red,
anything between gives Amber — and every Prediction Record's rating is the
thresholding of its own probability. -/
theorem rating_fixed_thresholds (p : ℝ) (X : List (String × Value))
    (rows : List Contribution) (h : allContributions X = .ok rows) :
    ((0.66 : ℝ) ≤ p → ratingOf p = .Green) ∧
    (p < (0.33 : ℝ) → ratingOf p = .Red) ∧
    ((0.33 : ℝ) ≤ p → p < (0.66 : ℝ) → ratingOf p = .Amber) ∧
    (∀ rec, predict_approval_probability X = .ok rec →
        rec.rating = ratingOf rec.probability) := by
  refine ⟨?_, ?_, ?_, ?_⟩
  · intro hp
    unfold ratingOf
    rw [if_pos hp]
  · intro hp
    unfold ratingOf
    rw [if_neg (not_le.mpr (by linarith)), if_pos hp]
  · intro hp1 hp2
    unfold ratingOf
    rw [if_neg (not_le.mpr hp2), if_neg (not_lt.mpr hp1)]
  · intro rec hrec
    rw [predict_ok_of_contributions X rows h] at hrec
    cases hrec
    rfl

/-- Claim C2 witness: the rating function evaluated at, and adjacent to, each
threshold boundary. -/
theorem rating_fixed_thresholds_witness :
    ratingOf 0.66 = .Green ∧ ratingOf 0.7 = .Green ∧
    ratingOf 0.65 = .Amber ∧ ratingOf 0.33 = .Amber ∧
    ratingOf 0.32 = .Red :=
  ⟨(rating_fixed_thresholds 0.66 exampleMap exampleRows rfl).1 (by norm_num),
   (rating_fixed_thresholds 0.7 exampleMap exampleRows rfl).1 (by norm_num),
   (rating_fixed_thresholds 0.65 exampleMap exampleRows rfl).2.2.1 (by norm_num) (by norm_num),
   (rating_fixed_thresholds 0.33 exampleMap exampleRows rfl).2.2.1 (by norm_num) (by norm_num),
   (rating_fixed_thresholds 0.32 exampleMap exampleRows rfl).2.1 (by norm_num)⟩

/-- Claim C3: the contribution list has one entry per scored variable — the
Combined Variable Map's entries in input order followed by the interaction
terms — each with contribution = value × coefficient and abs_contribution =
|contribution|, and the list the model returns is the stable sort of those
rows by descending absolute contribution: it is sorted, it is a permutation
of the rows, and any two rows already correctly ordered (in particular ties)
keep their input order. -/
theorem contributions_ranked_stable (X : List (String × Value))
    (rows : List Contribution) (h : allContributions X = .ok rows) :
    rows.map (fun r => r.name) = X.map Prod.fst ++ interactionDefs.map Prod.fst ∧
    (∀ r ∈ rows, r.contribution = r.value * r.coefficient ∧
        r.abs_contribution = |r.contribution|) ∧
    (∀ rec, predict_approval_probability X = .ok rec →
        rec.contributions = rows.mergeSort contribGE) ∧
    (rows.mergeSort contribGE).Pairwise
      (fun a b => b.abs_contribution ≤ a.abs_contribution) ∧
    (rows.mergeSort contribGE).Perm rows ∧
    (∀ a b, [a, b].Sublist rows → contribGE a b →
        [a, b].Sublist (rows.mergeSort contribGE)) := by
  obtain ⟨hn, hp⟩ := allContributions_ok X rows h
  refine ⟨hn, hp, ?_, ?_, ?_, ?_⟩
  · intro rec hrec
    rw [predict_ok_of_contributions X rows h] at hrec
    cases hrec
    rfl
  · exact (List.sorted_mergeSort contribGE_trans contribGE_total rows).imp
      (fun hab => by simpa [contribGE] using hab)
  · exact List.mergeSort_perm rows contribGE
  · intro a b hs hab
    exact List.pair_sublist_mergeSort contribGE_trans contribGE_total hab hs

/-- Claim C3 witness: on a concrete map the row names are the map's keys
followed by the interaction names, and the returned order is sorted and a
permutation of the input rows. -/
theorem contributions_ranked_stable_witness :
    exampleRows.map (fun r => r.name)
      = exampleMap.map Prod.fst ++ interactionDefs.map Prod.fst ∧
    (exampleRows.mergeSort contribGE).Pairwise
      (fun a b => b.abs_contribution ≤ a.abs_contribution) ∧
    (exampleRows.mergeSort contribGE).Perm exampleRows :=
  ⟨(contributions_ranked_stable exampleMap exampleRows rfl).1,
   (contributions_ranked_stable exampleMap exampleRows rfl).2.2.2.1,
   (contributions_ranked_stable exampleMap exampleRows rfl).2.2.2.2.1⟩

end PlanChecker
